import Mathlib

/-!
Verification of the peakfitter parameter codec, model evaluators, and fit
drivers (src/peakfitter/peakfitter.py) against its natural-language
specification.

Conventions of the shallow embedding:
* numpy floating-point scalars are modelled as rationals; the trigonometric
  functions and pi used by the rotation code are abstracted into a `TrigModel`
  record (the decode and residual bookkeeping proved here never depends on
  their values);
* a raised Python exception is an `Except.error`; the `ValueError` raised for
  leftover parameters is modelled structurally by `DecodeErr.residual`, which
  records exactly the data interpolated into the message text (the leftover
  working copy, the original input list, and the three flags as the code holds
  them at raise time); a list `pop(0)` on an empty list is `DecodeErr.index`;
* a `numpy.nan` produced upstream of a fit is `Option.none`;
* masked 2-d arrays are a value grid `List (List Rat)` plus a mask grid
  `List (List Bool)` (`true` = masked).
-/

/-- Abstract interpretation of `np.cos`, `np.sin` and `np.pi` used by the
rotation branch of the decoders. -/
structure TrigModel where
  cosq : Rat → Rat
  sinq : Rat → Rat
  piq : Rat

/-- A trivial interpretation, used to instantiate theorems at concrete inputs. -/
def trivialTrig : TrigModel := ⟨fun _ => 1, fun _ => 0, 0⟩

/-- Errors raised while decoding a parameter vector: `residual` models the
`ValueError("There are still input parameters: ...")` raised when the working
copy is non-empty after all pops (it records the leftover working copy, the
original input and the flag values interpolated into the message), and `index`
models the `IndexError` of popping an empty list. -/
inductive DecodeErr (α : Type) where
  | residual (leftover input : List α) (circle rotate vheight : Bool)
  | index
deriving DecidableEq

/-- Model of Python `list.pop(0)`. -/
def pop {α : Type} : List α → Except (DecodeErr α) (α × List α)
  | [] => .error .index
  | x :: xs => .ok (x, xs)

/-- Fields decoded from a single-peak parameter vector by `twodpeak` (and by
the identical pop sequence of `twodpeak_onedfunc`), lines 177-208. `rotateEff`
is the value of the local `rotate` after the `circle` branch may have cleared
it; `rota` is the rotation angle in radians (0 when rotation is off), and
`rcen_x`, `rcen_y` the pre-rotated center. -/
structure Peak2DParams where
  height : Rat
  amplitude : Rat
  center_x : Rat
  center_y : Rat
  width_x : Rat
  width_y : Rat
  rotateEff : Bool
  rota : Rat
  rcen_x : Rat
  rcen_y : Rat
deriving DecidableEq

/-- Decode step of `twodpeak` (peakfitter.py lines 177-208): pop height (if
`vheight`), then amplitude, center_y, center_x, then one width (if `circle`,
which clears `rotate`) or two widths, then the rotation angle in degrees,
converted to radians and used to pre-rotate the center; leftover values in the
working copy raise the residual-parameters `ValueError`. -/
def twodpeak_decode (T : TrigModel) (inpars : List Rat)
    (circle rotate vheight : Bool) : Except (DecodeErr Rat) Peak2DParams := do
  let (height, s) ← if vheight then pop inpars else pure ((0 : Rat), inpars)
  let (amplitude, s) ← pop s
  let (center_y, s) ← pop s
  let (center_x, s) ← pop s
  let (width_x, width_y, rotateEff, s) ←
    if circle then do
      let (w, s) ← pop s
      pure (w, w, false, s)
    else do
      let (wx, s) ← pop s
      let (wy, s) ← pop s
      pure (wx, wy, rotate, s)
  let (rota, rcen_x, rcen_y, s) ←
    if rotateEff then do
      let (rdeg, s) ← pop s
      let rota := T.piq / 180 * rdeg
      pure (rota, center_x * T.cosq rota - center_y * T.sinq rota,
            center_x * T.sinq rota + center_y * T.cosq rota, s)
    else
      pure ((0 : Rat), center_x, center_y, s)
  if s.isEmpty then
    pure ⟨height, amplitude, center_x, center_y, width_x, width_y,
          rotateEff, rota, rcen_x, rcen_y⟩
  else
    Except.error (.residual s inpars circle rotateEff vheight)

/-- Number of flattened mode amplitudes, peakfitter.py lines 269-275:
`max_p+1` when `max_l == 0`, else `(max_p+1)*(max_l+1)` (the same count; the
code only builds a different array shape). -/
def amplen (max_p max_l : Nat) : Nat :=
  if max_l = 0 then max_p + 1 else (max_p + 1) * (max_l + 1)

/-- Fields decoded from a multimode parameter vector by
`mm_laguerregauss_2d`, lines 266-309. `amps` is the flattened row-major
amplitude matrix taken from the tail of the vector. -/
structure MMLGParams where
  amps : List Rat
  height : Rat
  center_x : Rat
  center_y : Rat
  width_x : Rat
  width_y : Rat
  rotateEff : Bool
  rota : Rat
  rcen_x : Rat
  rcen_y : Rat
deriving DecidableEq

/-- Pop phase of `mm_laguerregauss_2d` (lines 280-309), operating on the
working copy `work` left after the amplitude tail has been deleted: pop height
(if `vheight`), then center_x, then center_y, then width(s), then rotation;
leftover values raise the residual-parameters `ValueError`, whose message
interpolates the leftover working copy, the original input `inpars0` and the
flags. -/
def mm_decode_core (T : TrigModel) (inpars0 amps work : List Rat)
    (circle rotate vheight : Bool) : Except (DecodeErr Rat) MMLGParams := do
  let (height, s) ← if vheight then pop work else pure ((0 : Rat), work)
  let (center_x, s) ← pop s
  let (center_y, s) ← pop s
  let (width_x, width_y, rotateEff, s) ←
    if circle then do
      let (w, s) ← pop s
      pure (w, w, false, s)
    else do
      let (wx, s) ← pop s
      let (wy, s) ← pop s
      pure (wx, wy, rotate, s)
  let (rota, rcen_x, rcen_y, s) ←
    if rotateEff then do
      let (rdeg, s) ← pop s
      let rota := T.piq / 180 * rdeg
      pure (rota, center_x * T.cosq rota - center_y * T.sinq rota,
            center_x * T.sinq rota + center_y * T.cosq rota, s)
    else
      pure ((0 : Rat), center_x, center_y, s)
  if s.isEmpty then
    pure ⟨amps, height, center_x, center_y, width_x, width_y,
          rotateEff, rota, rcen_x, rcen_y⟩
  else
    Except.error (.residual s inpars0 circle rotateEff vheight)

/-- Decode step of `mm_laguerregauss_2d` (lines 266-309): the last
`amplen max_p max_l` entries are removed from the tail as the flattened mode
amplitudes (`inpars[-amplen:]` then `del inpars[-amplen:]`), and the remaining
scalars are popped by `mm_decode_core`. -/
def mm_laguerregauss_2d_decode (T : TrigModel) (inpars : List Rat)
    (max_p max_l : Nat) (circle rotate vheight : Bool) :
    Except (DecodeErr Rat) MMLGParams :=
  mm_decode_core T inpars
    (inpars.drop (inpars.length - amplen max_p max_l))
    (inpars.take (inpars.length - amplen max_p max_l))
    circle rotate vheight

/-- Number of scalars popped off the working copy by `twodpeak_decode`:
height (if `vheight`), amplitude, center_y, center_x, width(s), rotation. -/
def twodpeak_scalar_count (circle rotate vheight : Bool) : Nat :=
  (if vheight then 1 else 0) + 3 + (if circle then 1 else 2) +
    (if circle then 0 else if rotate then 1 else 0)

/-- Number of scalars popped off the working copy by `mm_decode_core`:
height (if `vheight`), center_x, center_y, width(s), rotation. -/
def mm_scalar_count (circle rotate vheight : Bool) : Nat :=
  (if vheight then 1 else 0) + 2 + (if circle then 1 else 2) +
    (if circle then 0 else if rotate then 1 else 0)

/-! ### List helper lemmas -/

lemma length_succ_destruct {α : Type} {l : List α} {n : Nat}
    (h : l.length = n + 1) : ∃ a t, l = a :: t ∧ t.length = n := by
  cases l with
  | nil => exact absurd h (by simp)
  | cons a t => exact ⟨a, t, rfl, by simpa using h⟩

lemma list_ne_of_length_ne {α : Type} {l₁ l₂ : List α}
    (h : l₁.length ≠ l₂.length) : l₁ ≠ l₂ :=
  fun he => h (he ▸ rfl)

lemma destruct_lt {α : Type} (n : Nat) {l : List α} (h : n + 1 ≤ l.length) :
    ∃ a t, l = a :: t ∧ n ≤ t.length := by
  cases l with
  | nil => simp at h
  | cons a t => exact ⟨a, t, rfl, by simp at h; omega⟩

/-- A parameter vector longer than the number of scalars `twodpeak` pops
always decodes to the residual-parameters error, carrying the leftover
working copy, the original input and the flags (with `rotate` as cleared by
`circle`). -/
lemma twodpeak_decode_residual_of_long (T : TrigModel) (circle rotate vheight : Bool)
    (v : List Rat) (hv : twodpeak_scalar_count circle rotate vheight < v.length) :
    twodpeak_decode T v circle rotate vheight =
      .error (.residual (v.drop (twodpeak_scalar_count circle rotate vheight)) v
        circle (rotate && !circle) vheight) := by
  cases circle <;> cases rotate <;> cases vheight
  · obtain ⟨x0, t0, rfl, h0⟩ := destruct_lt 5 hv
    obtain ⟨x1, t1, rfl, h1⟩ := destruct_lt 4 h0
    obtain ⟨x2, t2, rfl, h2⟩ := destruct_lt 3 h1
    obtain ⟨x3, t3, rfl, h3⟩ := destruct_lt 2 h2
    obtain ⟨x4, t4, rfl, h4⟩ := destruct_lt 1 h3
    obtain ⟨x5, t5, rfl, h5⟩ := destruct_lt 0 h4
    rfl
  · obtain ⟨x0, t0, rfl, h0⟩ := destruct_lt 6 hv
    obtain ⟨x1, t1, rfl, h1⟩ := destruct_lt 5 h0
    obtain ⟨x2, t2, rfl, h2⟩ := destruct_lt 4 h1
    obtain ⟨x3, t3, rfl, h3⟩ := destruct_lt 3 h2
    obtain ⟨x4, t4, rfl, h4⟩ := destruct_lt 2 h3
    obtain ⟨x5, t5, rfl, h5⟩ := destruct_lt 1 h4
    obtain ⟨x6, t6, rfl, h6⟩ := destruct_lt 0 h5
    rfl
  · obtain ⟨x0, t0, rfl, h0⟩ := destruct_lt 6 hv
    obtain ⟨x1, t1, rfl, h1⟩ := destruct_lt 5 h0
    obtain ⟨x2, t2, rfl, h2⟩ := destruct_lt 4 h1
    obtain ⟨x3, t3, rfl, h3⟩ := destruct_lt 3 h2
    obtain ⟨x4, t4, rfl, h4⟩ := destruct_lt 2 h3
    obtain ⟨x5, t5, rfl, h5⟩ := destruct_lt 1 h4
    obtain ⟨x6, t6, rfl, h6⟩ := destruct_lt 0 h5
    rfl
  · obtain ⟨x0, t0, rfl, h0⟩ := destruct_lt 7 hv
    obtain ⟨x1, t1, rfl, h1⟩ := destruct_lt 6 h0
    obtain ⟨x2, t2, rfl, h2⟩ := destruct_lt 5 h1
    obtain ⟨x3, t3, rfl, h3⟩ := destruct_lt 4 h2
    obtain ⟨x4, t4, rfl, h4⟩ := destruct_lt 3 h3
    obtain ⟨x5, t5, rfl, h5⟩ := destruct_lt 2 h4
    obtain ⟨x6, t6, rfl, h6⟩ := destruct_lt 1 h5
    obtain ⟨x7, t7, rfl, h7⟩ := destruct_lt 0 h6
    rfl
  · obtain ⟨x0, t0, rfl, h0⟩ := destruct_lt 4 hv
    obtain ⟨x1, t1, rfl, h1⟩ := destruct_lt 3 h0
    obtain ⟨x2, t2, rfl, h2⟩ := destruct_lt 2 h1
    obtain ⟨x3, t3, rfl, h3⟩ := destruct_lt 1 h2
    obtain ⟨x4, t4, rfl, h4⟩ := destruct_lt 0 h3
    rfl
  · obtain ⟨x0, t0, rfl, h0⟩ := destruct_lt 5 hv
    obtain ⟨x1, t1, rfl, h1⟩ := destruct_lt 4 h0
    obtain ⟨x2, t2, rfl, h2⟩ := destruct_lt 3 h1
    obtain ⟨x3, t3, rfl, h3⟩ := destruct_lt 2 h2
    obtain ⟨x4, t4, rfl, h4⟩ := destruct_lt 1 h3
    obtain ⟨x5, t5, rfl, h5⟩ := destruct_lt 0 h4
    rfl
  · obtain ⟨x0, t0, rfl, h0⟩ := destruct_lt 4 hv
    obtain ⟨x1, t1, rfl, h1⟩ := destruct_lt 3 h0
    obtain ⟨x2, t2, rfl, h2⟩ := destruct_lt 2 h1
    obtain ⟨x3, t3, rfl, h3⟩ := destruct_lt 1 h2
    obtain ⟨x4, t4, rfl, h4⟩ := destruct_lt 0 h3
    rfl
  · obtain ⟨x0, t0, rfl, h0⟩ := destruct_lt 5 hv
    obtain ⟨x1, t1, rfl, h1⟩ := destruct_lt 4 h0
    obtain ⟨x2, t2, rfl, h2⟩ := destruct_lt 3 h1
    obtain ⟨x3, t3, rfl, h3⟩ := destruct_lt 2 h2
    obtain ⟨x4, t4, rfl, h4⟩ := destruct_lt 1 h3
    obtain ⟨x5, t5, rfl, h5⟩ := destruct_lt 0 h4
    rfl

/-- A working copy longer than the number of scalars `mm_decode_core` pops
always yields the residual-parameters error. -/
lemma mm_decode_core_residual_of_long (T : TrigModel) (inpars0 amps : List Rat)
    (circle rotate vheight : Bool) (w : List Rat)
    (hw : mm_scalar_count circle rotate vheight < w.length) :
    mm_decode_core T inpars0 amps w circle rotate vheight =
      .error (.residual (w.drop (mm_scalar_count circle rotate vheight)) inpars0
        circle (rotate && !circle) vheight) := by
  cases circle <;> cases rotate <;> cases vheight
  · obtain ⟨x0, t0, rfl, h0⟩ := destruct_lt 4 hw
    obtain ⟨x1, t1, rfl, h1⟩ := destruct_lt 3 h0
    obtain ⟨x2, t2, rfl, h2⟩ := destruct_lt 2 h1
    obtain ⟨x3, t3, rfl, h3⟩ := destruct_lt 1 h2
    obtain ⟨x4, t4, rfl, h4⟩ := destruct_lt 0 h3
    rfl
  · obtain ⟨x0, t0, rfl, h0⟩ := destruct_lt 5 hw
    obtain ⟨x1, t1, rfl, h1⟩ := destruct_lt 4 h0
    obtain ⟨x2, t2, rfl, h2⟩ := destruct_lt 3 h1
    obtain ⟨x3, t3, rfl, h3⟩ := destruct_lt 2 h2
    obtain ⟨x4, t4, rfl, h4⟩ := destruct_lt 1 h3
    obtain ⟨x5, t5, rfl, h5⟩ := destruct_lt 0 h4
    rfl
  · obtain ⟨x0, t0, rfl, h0⟩ := destruct_lt 5 hw
    obtain ⟨x1, t1, rfl, h1⟩ := destruct_lt 4 h0
    obtain ⟨x2, t2, rfl, h2⟩ := destruct_lt 3 h1
    obtain ⟨x3, t3, rfl, h3⟩ := destruct_lt 2 h2
    obtain ⟨x4, t4, rfl, h4⟩ := destruct_lt 1 h3
    obtain ⟨x5, t5, rfl, h5⟩ := destruct_lt 0 h4
    rfl
  · obtain ⟨x0, t0, rfl, h0⟩ := destruct_lt 6 hw
    obtain ⟨x1, t1, rfl, h1⟩ := destruct_lt 5 h0
    obtain ⟨x2, t2, rfl, h2⟩ := destruct_lt 4 h1
    obtain ⟨x3, t3, rfl, h3⟩ := destruct_lt 3 h2
    obtain ⟨x4, t4, rfl, h4⟩ := destruct_lt 2 h3
    obtain ⟨x5, t5, rfl, h5⟩ := destruct_lt 1 h4
    obtain ⟨x6, t6, rfl, h6⟩ := destruct_lt 0 h5
    rfl
  · obtain ⟨x0, t0, rfl, h0⟩ := destruct_lt 3 hw
    obtain ⟨x1, t1, rfl, h1⟩ := destruct_lt 2 h0
    obtain ⟨x2, t2, rfl, h2⟩ := destruct_lt 1 h1
    obtain ⟨x3, t3, rfl, h3⟩ := destruct_lt 0 h2
    rfl
  · obtain ⟨x0, t0, rfl, h0⟩ := destruct_lt 4 hw
    obtain ⟨x1, t1, rfl, h1⟩ := destruct_lt 3 h0
    obtain ⟨x2, t2, rfl, h2⟩ := destruct_lt 2 h1
    obtain ⟨x3, t3, rfl, h3⟩ := destruct_lt 1 h2
    obtain ⟨x4, t4, rfl, h4⟩ := destruct_lt 0 h3
    rfl
  · obtain ⟨x0, t0, rfl, h0⟩ := destruct_lt 3 hw
    obtain ⟨x1, t1, rfl, h1⟩ := destruct_lt 2 h0
    obtain ⟨x2, t2, rfl, h2⟩ := destruct_lt 1 h1
    obtain ⟨x3, t3, rfl, h3⟩ := destruct_lt 0 h2
    rfl
  · obtain ⟨x0, t0, rfl, h0⟩ := destruct_lt 4 hw
    obtain ⟨x1, t1, rfl, h1⟩ := destruct_lt 3 h0
    obtain ⟨x2, t2, rfl, h2⟩ := destruct_lt 2 h1
    obtain ⟨x3, t3, rfl, h3⟩ := destruct_lt 1 h2
    obtain ⟨x4, t4, rfl, h4⟩ := destruct_lt 0 h3
    rfl

/-- C1: for every configuration flag combination and both model decoders
(single-peak `twodpeak` and multimode `mm_laguerregauss_2d`), a parameter
vector that leaves leftover scalars after all fields are consumed — in
particular any vector with extra trailing values — decodes to the fatal
residual-parameters error, which names the leftover values, the original
input, and the active flags. -/
theorem c1_residual_parameters_fatal (T : TrigModel) (circle rotate vheight : Bool)
    (max_p max_l : Nat) (v w : List Rat)
    (hv : twodpeak_scalar_count circle rotate vheight < v.length)
    (hw : mm_scalar_count circle rotate vheight + amplen max_p max_l < w.length) :
    twodpeak_decode T v circle rotate vheight =
      .error (.residual (v.drop (twodpeak_scalar_count circle rotate vheight)) v
        circle (rotate && !circle) vheight) ∧
    mm_laguerregauss_2d_decode T w max_p max_l circle rotate vheight =
      .error (.residual ((w.take (w.length - amplen max_p max_l)).drop
          (mm_scalar_count circle rotate vheight)) w circle (rotate && !circle) vheight) := by
  refine ⟨twodpeak_decode_residual_of_long T circle rotate vheight v hv, ?_⟩
  unfold mm_laguerregauss_2d_decode
  apply mm_decode_core_residual_of_long
  rw [List.length_take]
  refine Nat.lt_min.mpr ⟨by omega, by omega⟩

/-- Witness for C1: a vector with one extra trailing value under
`circle=False, rotate=True, vheight=True` (and `max_p = max_l = 0` for the
multimode decoder) hits the residual-parameters error in both decoders. -/
theorem c1_residual_parameters_fatal_witness :
    twodpeak_scalar_count false true true < ([1, 2, 3, 4, 5, 6, 7, 8] : List Rat).length ∧
    mm_scalar_count false true true + amplen 0 0 < ([1, 2, 3, 4, 5, 6, 7, 8] : List Rat).length ∧
    twodpeak_decode trivialTrig [1, 2, 3, 4, 5, 6, 7, 8] false true true =
      .error (.residual (([1, 2, 3, 4, 5, 6, 7, 8] : List Rat).drop
        (twodpeak_scalar_count false true true)) [1, 2, 3, 4, 5, 6, 7, 8]
        false (true && !false) true) ∧
    mm_laguerregauss_2d_decode trivialTrig [1, 2, 3, 4, 5, 6, 7, 8] 0 0 false true true =
      .error (.residual ((([1, 2, 3, 4, 5, 6, 7, 8] : List Rat).take
          (([1, 2, 3, 4, 5, 6, 7, 8] : List Rat).length - amplen 0 0)).drop
          (mm_scalar_count false true true)) [1, 2, 3, 4, 5, 6, 7, 8]
        false (true && !false) true) := by
  have h := c1_residual_parameters_fatal trivialTrig false true true 0 0
    [1, 2, 3, 4, 5, 6, 7, 8] [1, 2, 3, 4, 5, 6, 7, 8] (by decide) (by decide)
  exact ⟨by decide, by decide, h.1, h.2⟩

/-- C2 counterexample: the multimode decoder pops `center_x` before
`center_y` (line 285), not `center_y` before `center_x` as the single-peak
decoder does (line 184) and as the claim states for both.  On the vector
`[10, 1, 2, 3, 4, 9]` (`vheight`, no `circle`, no `rotate`, one mode
amplitude `9`), the claimed order would give `center_y = 1`; the code gives
`center_y = 2`. -/
theorem c2_mm_center_order_counterexample :
    (mm_laguerregauss_2d_decode trivialTrig [10, 1, 2, 3, 4, 9] 0 0
        false false true).toOption.map MMLGParams.center_y ≠ some 1 := by
  decide

lemma mm_decode_append_ofFn (T : TrigModel) (scal : List Rat) (max_p max_l : Nat)
    (af : Fin (amplen max_p max_l) → Rat) (circle rotate vheight : Bool) :
    mm_laguerregauss_2d_decode T (scal ++ List.ofFn af) max_p max_l circle rotate vheight =
      mm_decode_core T (scal ++ List.ofFn af) (List.ofFn af) scal circle rotate vheight := by
  unfold mm_laguerregauss_2d_decode
  have hlen : scal.length = (scal ++ List.ofFn af).length - amplen max_p max_l := by
    simp
  rw [← hlen, List.take_left, List.drop_left]

/-- C2 (amended): both decoders consume scalar fields in a fixed order —
height (only if `vheight`), then amplitude (single-peak only; multimode
amplitudes are removed from the vector's tail first), then for the
single-peak decoder center_y followed by center_x but for the multimode
decoder center_x followed by center_y, then one shared width if `circle`
(which also forces rotation off) or two independent widths otherwise, then
the rotation angle in degrees if `rotate` (converted to radians and used to
pre-rotate the center).  Stated for every flag combination over vectors of
exactly the matching length. -/
theorem c2_fixed_field_order_amended (T : TrigModel) (h a cy cx w wx wy rot : Rat)
    (max_p max_l : Nat) (af : Fin (amplen max_p max_l) → Rat) :
    (twodpeak_decode T [h, a, cy, cx, wx, wy, rot] false true true =
      .ok ⟨h, a, cx, cy, wx, wy, true, T.piq / 180 * rot,
        cx * T.cosq (T.piq / 180 * rot) - cy * T.sinq (T.piq / 180 * rot),
        cx * T.sinq (T.piq / 180 * rot) + cy * T.cosq (T.piq / 180 * rot)⟩) ∧
    (twodpeak_decode T [a, cy, cx, wx, wy, rot] false true false =
      .ok ⟨0, a, cx, cy, wx, wy, true, T.piq / 180 * rot,
        cx * T.cosq (T.piq / 180 * rot) - cy * T.sinq (T.piq / 180 * rot),
        cx * T.sinq (T.piq / 180 * rot) + cy * T.cosq (T.piq / 180 * rot)⟩) ∧
    (twodpeak_decode T [h, a, cy, cx, wx, wy] false false true =
      .ok ⟨h, a, cx, cy, wx, wy, false, 0, cx, cy⟩) ∧
    (twodpeak_decode T [a, cy, cx, wx, wy] false false false =
      .ok ⟨0, a, cx, cy, wx, wy, false, 0, cx, cy⟩) ∧
    (∀ r : Bool, twodpeak_decode T [h, a, cy, cx, w] true r true =
      .ok ⟨h, a, cx, cy, w, w, false, 0, cx, cy⟩) ∧
    (∀ r : Bool, twodpeak_decode T [a, cy, cx, w] true r false =
      .ok ⟨0, a, cx, cy, w, w, false, 0, cx, cy⟩) ∧
    (mm_laguerregauss_2d_decode T ([h, cx, cy, wx, wy, rot] ++ List.ofFn af)
        max_p max_l false true true =
      .ok ⟨List.ofFn af, h, cx, cy, wx, wy, true, T.piq / 180 * rot,
        cx * T.cosq (T.piq / 180 * rot) - cy * T.sinq (T.piq / 180 * rot),
        cx * T.sinq (T.piq / 180 * rot) + cy * T.cosq (T.piq / 180 * rot)⟩) ∧
    (mm_laguerregauss_2d_decode T ([cx, cy, wx, wy, rot] ++ List.ofFn af)
        max_p max_l false true false =
      .ok ⟨List.ofFn af, 0, cx, cy, wx, wy, true, T.piq / 180 * rot,
        cx * T.cosq (T.piq / 180 * rot) - cy * T.sinq (T.piq / 180 * rot),
        cx * T.sinq (T.piq / 180 * rot) + cy * T.cosq (T.piq / 180 * rot)⟩) ∧
    (mm_laguerregauss_2d_decode T ([h, cx, cy, wx, wy] ++ List.ofFn af)
        max_p max_l false false true =
      .ok ⟨List.ofFn af, h, cx, cy, wx, wy, false, 0, cx, cy⟩) ∧
    (mm_laguerregauss_2d_decode T ([cx, cy, wx, wy] ++ List.ofFn af)
        max_p max_l false false false =
      .ok ⟨List.ofFn af, 0, cx, cy, wx, wy, false, 0, cx, cy⟩) ∧
    (∀ r : Bool, mm_laguerregauss_2d_decode T ([h, cx, cy, w] ++ List.ofFn af)
        max_p max_l true r true =
      .ok ⟨List.ofFn af, h, cx, cy, w, w, false, 0, cx, cy⟩) ∧
    (∀ r : Bool, mm_laguerregauss_2d_decode T ([cx, cy, w] ++ List.ofFn af)
        max_p max_l true r false =
      .ok ⟨List.ofFn af, 0, cx, cy, w, w, false, 0, cx, cy⟩) := by
  refine ⟨rfl, rfl, rfl, rfl, fun _ => rfl, fun _ => rfl, ?_, ?_, ?_, ?_, ?_, ?_⟩
  · rw [mm_decode_append_ofFn]; rfl
  · rw [mm_decode_append_ofFn]; rfl
  · rw [mm_decode_append_ofFn]; rfl
  · rw [mm_decode_append_ofFn]; rfl
  · intro r; rw [mm_decode_append_ofFn]; rfl
  · intro r; rw [mm_decode_append_ofFn]; rfl

/-! ### Post-fit processing shared by `peakfit` and `mm_laguerregauss2d_fit` -/

/-- Python float modulo with a positive modulus, `x % m` (used as
`mp.params[-1] %= 180.0`). -/
def pymod (x m : Rat) : Rat := x - m * ⌊x / m⌋

/-- Model of `mp.params[-1] %= 180.0`: the last entry of the solver's
parameter vector is replaced by its value modulo 180 (an empty vector is
unreachable: both drivers always build at least four parameter records). -/
def wrap_last_mod180 (l : List Rat) : List Rat :=
  l.dropLast ++ (match l.getLast? with
    | none => []
    | some x => [pymod x 180])

/-- Post-processing of the solver parameter vector common to `peakfit`
(lines 670-671) and `mm_laguerregauss2d_fit` (lines 516-517): when
`(not circle) and rotate`, the LAST entry of the vector is reduced modulo
180 degrees; all other entries are returned unchanged. -/
def fit_post_params (circle rotate : Bool) (p : List Rat) : List Rat :=
  if (!circle) && rotate then wrap_last_mod180 p else p

/-- Order of solver parameter records built by `peakfit` (lines 631-654):
HEIGHT (if `vheight`), AMPLITUDE, XSHIFT, YSHIFT, XWIDTH, then YWIDTH and
ROTATION when not `circle`; ROTATION is last when rotation is active. -/
def peakfit_param_order (circle rotate vheight : Bool) : List String :=
  (if vheight then ["HEIGHT"] else []) ++ ["AMPLITUDE", "XSHIFT", "YSHIFT", "XWIDTH"] ++
    (if circle then [] else ["YWIDTH"] ++ (if rotate then ["ROTATION"] else []))

/-- Order of solver parameter records built by `mm_laguerregauss2d_fit`
(lines 478-504): HEIGHT (if `vheight`), XSHIFT, YSHIFT, XWIDTH, then YWIDTH
and ROTATION when not `circle`, then one MODEAMP record per mode; the mode
amplitudes come AFTER the rotation angle. -/
def mm_fit_param_order (max_p max_l : Nat) (circle rotate vheight : Bool) : List String :=
  (if vheight then ["HEIGHT"] else []) ++ ["XSHIFT", "YSHIFT", "XWIDTH"] ++
    (if circle then [] else ["YWIDTH"] ++ (if rotate then ["ROTATION"] else [])) ++
    (List.range (amplen max_p max_l)).map (fun _ => "MODEAMP")

/-- C3 (code bug): in `mm_laguerregauss2d_fit`, the mode-amplitude records
follow ROTATION in the solver parameter vector, so `mp.params[-1] %= 180.0`
(line 517) wraps the LAST MODE AMPLITUDE into [0, 180) and leaves the
rotation entry untouched.  With `rotate=True, circle=False, vheight=True,
max_p=1, max_l=0` and solver output `[0, 32, 32, 8, 8, 200, 1, -1/2]`
(rotation 200 at index 5, amplitudes 1 and -1/2 at the tail), the claim and
spec require the result `[0, 32, 32, 8, 8, 20, 1, -1/2]`; the code produces
`[0, 32, 32, 8, 8, 200, 1, 359/2]`.  In `peakfit` itself the last entry is
the rotation angle, so there the claim holds; the multimode layout makes the
shared line a slip. -/
theorem c3_mm_wraps_amplitude_not_rotation :
    mm_fit_param_order 1 0 false true true =
      ["HEIGHT", "XSHIFT", "YSHIFT", "XWIDTH", "YWIDTH", "ROTATION",
       "MODEAMP", "MODEAMP"] ∧
    fit_post_params false true [0, 32, 32, 8, 8, 200, 1, -(1/2)] =
      [0, 32, 32, 8, 8, 200, 1, 359/2] ∧
    peakfit_param_order false true true =
      ["HEIGHT", "AMPLITUDE", "XSHIFT", "YSHIFT", "XWIDTH", "YWIDTH", "ROTATION"] := by
  refine ⟨by decide, ?_, by decide⟩
  show wrap_last_mod180 [0, 32, 32, 8, 8, 200, 1, -(1/2)] = [0, 32, 32, 8, 8, 200, 1, 359/2]
  norm_num [wrap_last_mod180, pymod]

/-! ### External solver interface -/

/-- Result object returned by the external `mpfit` solver, as the fit
drivers read it: best-fit parameters, 1-sigma errors, final cost `fnorm`,
degrees of freedom `dof`, a `status` code and an error message string. -/
structure MpResult where
  params : List Rat
  perror : List Rat
  fnorm : Rat
  dof : Nat
  status : Int
  errmsg : String

/-- Modelled from the spec: the `mpfit` solver implementation is not part of
the sources under verification, only its callers are.  Section 6 of the spec
fixes its interface: it returns a "status code (0 signals failure), and an
error message string (empty on success)", i.e. a run fails exactly when
`status = 0` and exactly when the message is non-empty. -/
def SolverContract (m : MpResult) : Prop :=
  m.errmsg ≠ "" ↔ m.status = 0

/-- Failure test of `peakfit` and `mm_laguerregauss2d_fit`
(`if mp.errmsg: raise ...`, lines 667-668 and 513-514): Python string
truthiness, i.e. the message is non-empty. -/
def peakfit_solver_fails (m : MpResult) : Bool :=
  !m.errmsg.isEmpty

/-- Failure test of `multipeakfit` (and `onedpeakfit`):
`if mp.status == 0: raise Exception(mp.errmsg)`, lines 970-971. -/
def multipeakfit_solver_fails (m : MpResult) : Bool :=
  m.status == 0

/-- C5: under the solver contract of the spec, `multipeakfit` raises a
solver error exactly when the solver message is non-empty, which is the same
failure condition `peakfit` tests (`multipeakfit` reads `mp.status == 0`,
`peakfit` reads the truthiness of `mp.errmsg`; the contract makes the two
tests coincide). -/
theorem c5_multipeakfit_failure_condition (m : MpResult) (hc : SolverContract m) :
    multipeakfit_solver_fails m = peakfit_solver_fails m ∧
    (multipeakfit_solver_fails m = true ↔ m.errmsg ≠ "") := by
  have hiff : m.errmsg ≠ "" ↔ m.status = 0 := hc
  have h1 : peakfit_solver_fails m = true ↔ m.errmsg ≠ "" := by
    simp only [peakfit_solver_fails, Bool.not_eq_true', Bool.eq_false_iff, ne_eq]
    exact not_congr (String.isEmpty_iff m.errmsg)
  have h2 : multipeakfit_solver_fails m = true ↔ m.status = 0 := by
    simp [multipeakfit_solver_fails]
  constructor
  · cases hp : peakfit_solver_fails m <;> cases hm : multipeakfit_solver_fails m <;> try rfl
    · exact absurd (h1.mpr (hiff.mpr (h2.mp hm))) (by simp [hp])
    · exact absurd (h2.mpr (hiff.mp (h1.mp hp))) (by simp [hm])
  · exact h2.trans hiff.symm

/-- Witness for C5: a successful solver result (empty message, nonzero
status) fails neither driver test. -/
theorem c5_multipeakfit_failure_condition_witness :
    SolverContract ⟨[1], [0], 0, 1, 1, ""⟩ ∧
    (multipeakfit_solver_fails ⟨[1], [0], 0, 1, 1, ""⟩ =
        peakfit_solver_fails ⟨[1], [0], 0, 1, 1, ""⟩ ∧
      (multipeakfit_solver_fails ⟨[1], [0], 0, 1, 1, ""⟩ = true ↔
        (MpResult.errmsg ⟨[1], [0], 0, 1, 1, ""⟩) ≠ "")) := by
  refine ⟨?_, c5_multipeakfit_failure_condition ⟨[1], [0], 0, 1, 1, ""⟩ ?_⟩ <;>
    simp [SolverContract]

/-! ### Chi-square post-processing -/

/-- Python division that raises `ZeroDivisionError` on a zero denominator. -/
def pydiv (x : Rat) (d : Nat) : Except String Rat :=
  if d = 0 then .error "ZeroDivisionError" else .ok (x / d)

/-- Chi-square post-processing shared by `peakfit` (lines 673-677) and
`mm_laguerregauss2d_fit` (lines 519-523): `chi2` is the solver final cost
`fnorm`; `chi2n` is `fnorm/dof`, with the `ZeroDivisionError` caught locally
and replaced by `nan` (modelled as `none`). -/
def chi2_post (fnorm : Rat) (dof : Nat) : Rat × Option Rat :=
  (fnorm, match pydiv fnorm dof with
    | .error _ => none
    | .ok q => some q)

/-- C8: the reported chi-square is the solver final cost, and the reported
reduced chi-square is cost/dof except that zero degrees of freedom yields
not-a-number (`none`) instead of a propagating exception. -/
theorem c8_chi2_dof_edge (fnorm : Rat) (dof : Nat) :
    (chi2_post fnorm dof).1 = fnorm ∧
    (dof = 0 → (chi2_post fnorm dof).2 = none) ∧
    (dof ≠ 0 → (chi2_post fnorm dof).2 = some (fnorm / dof)) := by
  refine ⟨rfl, fun h0 => ?_, fun hn => ?_⟩ <;> simp [chi2_post, pydiv, *]

/-- Witness for C8: a fit with `dof = 0` (parameter count equal to data
count) reports reduced chi-square as not-a-number, and one with `dof = 3`
reports the quotient. -/
theorem c8_chi2_dof_edge_witness :
    (chi2_post 6 0).2 = none ∧ (chi2_post 6 3).2 = some (6 / (3 : Nat) : Rat) := by
  exact ⟨(c8_chi2_dof_edge 6 0).2.1 rfl, (c8_chi2_dof_edge 6 3).2.2 (by decide)⟩

/-! ### Moment estimator tail (`onedmoments`, lines 720-738) -/

/-- IEEE-style comparison on possibly-NaN scalars (`none` is NaN): any
comparison involving NaN is false, matching numpy. -/
def fltLt (a b : Option Rat) : Bool :=
  match a, b with
  | some x, some y => decide (x < y)
  | _, _ => false

/-- One candidate branch of the moment estimate: the amplitude, center and
width computed under the assumption of a negative-going (`L`) or
positive-going (`H`) peak.  Each value may be NaN (`none`) for degenerate
input. -/
structure MomBranch where
  amplitude : Option Rat
  xcen : Option Rat
  width : Option Rat
deriving DecidableEq

/-- Branch selection of `onedmoments` (lines 720-728): `negamp = some true`
forces the negative branch, `some false` forces the positive branch, and
`none` auto-detects by comparing the dispersion of abscissa values above
versus below the data mean. -/
def selectBranch (negamp : Option Bool) (lo hi : MomBranch)
    (Lstddev Hstddev : Option Rat) : MomBranch :=
  match negamp with
  | some true => lo
  | none => if fltLt Hstddev Lstddev then hi else lo
  | some false => hi

/-- Finalization of `onedmoments` (lines 730-738) on the selected branch:
build `mylist = [amplitude, xcen, width_x]`, raise
`ValueError("something is nan")` if any of the selected width, the estimated
height, or the selected amplitude is NaN, and otherwise prepend the height
when `vheight` and return. -/
def onedmoments_finalize (vheight : Bool) (height : Option Rat)
    (sel : MomBranch) : Except String (List (Option Rat)) :=
  let mylist := [sel.amplitude, sel.xcen, sel.width]
  if sel.width.isNone || height.isNone || sel.amplitude.isNone then
    Except.error "something is nan"
  else if vheight then Except.ok (height :: mylist) else Except.ok mylist

/-- Tail of `onedmoments` (lines 720-738): branch selection followed by the
NaN check and list assembly. -/
def onedmoments_tail (vheight : Bool) (height : Option Rat) (negamp : Option Bool)
    (lo hi : MomBranch) (Lstddev Hstddev : Option Rat) :
    Except String (List (Option Rat)) :=
  onedmoments_finalize vheight height (selectBranch negamp lo hi Lstddev Hstddev)

/-- C9: `onedmoments` raises the validation error exactly when the computed
width, height, or amplitude is not-a-number, and otherwise returns
`[height (only if vheight), amplitude, center, width]` with no error. -/
theorem c9_onedmoments_nan_check (vheight : Bool) (height : Option Rat)
    (negamp : Option Bool) (lo hi : MomBranch) (Lstddev Hstddev : Option Rat) :
    (onedmoments_tail vheight height negamp lo hi Lstddev Hstddev =
        .error "something is nan" ↔
      ((selectBranch negamp lo hi Lstddev Hstddev).width.isNone ∨
        height.isNone ∨
        (selectBranch negamp lo hi Lstddev Hstddev).amplitude.isNone)) ∧
    (¬ ((selectBranch negamp lo hi Lstddev Hstddev).width.isNone ∨
        height.isNone ∨
        (selectBranch negamp lo hi Lstddev Hstddev).amplitude.isNone) →
      onedmoments_tail vheight height negamp lo hi Lstddev Hstddev =
        .ok ((if vheight then [height] else []) ++
          [(selectBranch negamp lo hi Lstddev Hstddev).amplitude,
           (selectBranch negamp lo hi Lstddev Hstddev).xcen,
           (selectBranch negamp lo hi Lstddev Hstddev).width])) := by
  have key : ∀ sel : MomBranch,
      (onedmoments_finalize vheight height sel = .error "something is nan" ↔
        (sel.width.isNone ∨ height.isNone ∨ sel.amplitude.isNone)) ∧
      (¬ (sel.width.isNone ∨ height.isNone ∨ sel.amplitude.isNone) →
        onedmoments_finalize vheight height sel =
          .ok ((if vheight then [height] else []) ++
            [sel.amplitude, sel.xcen, sel.width])) := by
    rintro ⟨sa, sx, sw⟩
    cases sa <;> cases sw <;> cases height <;> cases vheight <;>
      simp [onedmoments_finalize]
  exact key (selectBranch negamp lo hi Lstddev Hstddev)

/-- Witness for C9: a fully finite moment estimate under `vheight` returns
`[height, amplitude, center, width]` and does not raise. -/
theorem c9_onedmoments_nan_check_witness :
    (¬ ((selectBranch (some false) ⟨some 0, some 0, some 0⟩ ⟨some 2, some 3, some 4⟩
          (some 1) (some 1)).width.isNone ∨
        (some (1 : Rat)).isNone ∨
        (selectBranch (some false) ⟨some 0, some 0, some 0⟩ ⟨some 2, some 3, some 4⟩
          (some 1) (some 1)).amplitude.isNone)) ∧
    onedmoments_tail true (some 1) (some false) ⟨some 0, some 0, some 0⟩
        ⟨some 2, some 3, some 4⟩ (some 1) (some 1) =
      .ok ((if true then [some (1 : Rat)] else []) ++
        [(selectBranch (some false) ⟨some 0, some 0, some 0⟩ ⟨some 2, some 3, some 4⟩
            (some 1) (some 1)).amplitude,
         (selectBranch (some false) ⟨some 0, some 0, some 0⟩ ⟨some 2, some 3, some 4⟩
            (some 1) (some 1)).xcen,
         (selectBranch (some false) ⟨some 0, some 0, some 0⟩ ⟨some 2, some 3, some 4⟩
            (some 1) (some 1)).width]) := by
  refine ⟨by decide, (c9_onedmoments_nan_check true (some 1) (some false)
    ⟨some 0, some 0, some 0⟩ ⟨some 2, some 3, some 4⟩ (some 1) (some 1)).2 (by decide)⟩

/-! ### Dynamically typed model of the 1-D fit residual (`onedpeakfit`) -/

/-- Python runtime values flowing through `onedpeak`: a scalar, a numpy
array, or a callable (referenced by an opaque handle whose behaviour is
given by an interpretation `I`). -/
inductive PyVal where
  | num (q : Rat)
  | arr (l : List Rat)
  | fnref (h : Nat)
deriving DecidableEq

/-- Broadcasting binary arithmetic on Python values; applying arithmetic to
a callable is a `TypeError`. -/
def pyBin (f : Rat → Rat → Rat) : PyVal → PyVal → Except String PyVal
  | .num a, .num b => .ok (.num (f a b))
  | .num a, .arr b => .ok (.arr (b.map (fun x => f a x)))
  | .arr a, .num b => .ok (.arr (a.map (fun x => f x b)))
  | .arr a, .arr b =>
      if a.length = b.length then .ok (.arr (List.zipWith f a b))
      else .error "ValueError: operands could not be broadcast together"
  | _, _ => .error "TypeError: unsupported operand type"

def pyAdd : PyVal → PyVal → Except String PyVal := pyBin (· + ·)
def pySub : PyVal → PyVal → Except String PyVal := pyBin (· - ·)
def pyMul : PyVal → PyVal → Except String PyVal := pyBin (· * ·)
def pyDiv : PyVal → PyVal → Except String PyVal := pyBin (· / ·)

/-- Calling a Python value on two arguments: only callables can be applied;
applying a scalar or an array raises `TypeError`. -/
def pyApply (I : Nat → PyVal → PyVal → Except String PyVal) :
    PyVal → PyVal → PyVal → Except String PyVal
  | .fnref h, a, b => I h a b
  | _, _, _ => .error "TypeError: numpy.ndarray object is not callable"

/-- Body of `onedpeak` (lines 741-746): `H + A * peakfunc((x - dx), w)`,
evaluated on the values bound to its six parameters in order
`(peakfunc, x, H, A, dx, w)`. -/
def onedpeak_body (I : Nat → PyVal → PyVal → Except String PyVal)
    (peakfunc x H A dx w : PyVal) : Except String PyVal := do
  let t ← pySub x dx
  let s ← pyApply I peakfunc t w
  let m ← pyMul A s
  pyAdd H m

/-- A positional Python call of `onedpeak`: the argument list is matched
against the six parameters; a wrong count is a `TypeError`. -/
def onedpeak_call (I : Nat → PyVal → PyVal → Except String PyVal)
    (args : List PyVal) : Except String PyVal :=
  match args with
  | [pf, x, H, A, dx, w] => onedpeak_body I pf x H A dx w
  | _ => .error "TypeError: wrong number of arguments"

/-- Residual closure built by `onedpeakfit.mpfitfun` (lines 790-795): for a
solver parameter vector `p` it evaluates `onedpeak(x, *p, peakfunc)` — the
abscissa array is passed first (landing in the `peakfunc` slot) and the
peak-shape callable last (landing in the width slot) — subtracts from the
data and optionally divides by the error array. -/
def onedpeakfit_mpfitfun (I : Nat → PyVal → PyVal → Except String PyVal)
    (peakfunc : PyVal) (xax ydata : List Rat) (err : Option (List Rat))
    (p : List Rat) : Except String PyVal := do
  let model ← onedpeak_call I ([PyVal.arr xax] ++ p.map PyVal.num ++ [peakfunc])
  let delta ← pySub (.arr ydata) model
  match err with
  | none => pure delta
  | some e => pyDiv delta (.arr e)

/-- C10: the residual function `onedpeakfit` hands to the solver errors on
every evaluation with a numeric parameter vector (the solver always passes
the four values of the four parameter records): the call
`onedpeak(xax, *p, peakfunc)` binds the data abscissa array to the
`peakfunc` parameter and the scalar `p[0]` to the `x` parameter, so the body
applies the non-callable abscissa array and raises `TypeError` for every
`p`, every data array, every error array, and every actual peak function; no
residual vector is ever produced.  Consequently every per-pixel fit of
`collapse_peakfit`, which calls `onedpeakfit`, fails the same way. -/
theorem c10_onedpeakfit_residual_always_errors
    (I : Nat → PyVal → PyVal → Except String PyVal) (peakfunc : PyVal)
    (xax ydata : List Rat) (err : Option (List Rat)) (p : List Rat)
    (hp : p.length = 4) :
    onedpeakfit_mpfitfun I peakfunc xax ydata err p =
      .error "TypeError: numpy.ndarray object is not callable" := by
  obtain ⟨a, t0, rfl, h0⟩ := length_succ_destruct hp
  obtain ⟨b, t1, rfl, h1⟩ := length_succ_destruct h0
  obtain ⟨c, t2, rfl, h2⟩ := length_succ_destruct h1
  obtain ⟨d, t3, rfl, h3⟩ := length_succ_destruct h2
  rw [List.length_eq_zero] at h3
  subst h3
  rfl

/-- Witness for C10: a length-4 numeric parameter vector makes the residual
error out. -/
theorem c10_onedpeakfit_residual_always_errors_witness :
    ([1, 2, 3, 4] : List Rat).length = 4 ∧
    onedpeakfit_mpfitfun (fun _ _ _ => .ok (.num 0)) (.fnref 0) [0, 1] [5, 6]
        none [1, 2, 3, 4] =
      .error "TypeError: numpy.ndarray object is not callable" := by
  exact ⟨by decide, c10_onedpeakfit_residual_always_errors (fun _ _ _ => .ok (.num 0))
    (.fnref 0) [0, 1] [5, 6] none [1, 2, 3, 4] (by decide)⟩

/-! ### Masked residual of `peakfit` -/

/-- Model surface built from decoded single-peak parameters (`rotpeak`,
lines 210-218): rotate the coordinates when rotation is active, then
`height + amplitude * peakfunc(xp - rcen_x, width_x) * peakfunc(yp - rcen_y,
width_y)`. -/
def rotpeak (T : TrigModel) (peakfunc : Rat → Rat → Rat) (P : Peak2DParams)
    (x y : Rat) : Rat :=
  let xp := if P.rotateEff then x * T.cosq P.rota - y * T.sinq P.rota else x
  let yp := if P.rotateEff then x * T.sinq P.rota + y * T.cosq P.rota else y
  P.height + P.amplitude * peakfunc (xp - P.rcen_x) P.width_x *
    peakfunc (yp - P.rcen_y) P.width_y

/-- Row-major masked residual, `((data - model)/err).compressed()` (lines
626-628): scan the grid in row-major order, skip masked cells, and emit
`(data[i][j] - model(i,j)) / err(i,j)` for the rest.  The value stored at a
masked cell is never read. -/
def compressed_residual (model : Nat → Nat → Rat) (data : List (List Rat))
    (mask : List (List Bool)) (err : Nat → Nat → Rat) : List Rat :=
  (List.range data.length).flatMap fun i =>
    (List.range (data.getD i []).length).flatMap fun j =>
      if (mask.getD i []).getD j false then []
      else [((data.getD i []).getD j 0 - model i j) / err i j]

/-- Residual closure `peakfit.mpfitfun` (lines 624-629): decode the
parameter vector with `twodpeak`, evaluate the model over the coordinate
grid `np.indices(data.shape)` (so the model at cell `(i,j)` is taken at the
coordinates `(i,j)`), subtract from the data, divide by the error, and
return the unmasked entries. -/
def peakfit_mpfitfun (T : TrigModel) (peakfunc : Rat → Rat → Rat)
    (data : List (List Rat)) (mask : List (List Bool)) (err : Nat → Nat → Rat)
    (circle rotate vheight : Bool) (p : List Rat) :
    Except (DecodeErr Rat) (List Rat) :=
  match twodpeak_decode T p circle rotate vheight with
  | .error e => .error e
  | .ok P => .ok (compressed_residual
      (fun i j => rotpeak T peakfunc P (i : Rat) (j : Rat)) data mask err)

/-- Two data grids have the same shape and identical values at every
unmasked position of the mask grid (decidable, so witnesses can evaluate
it). -/
def maskAgreesOn (mask : List (List Bool)) (d1 d2 : List (List Rat)) : Bool :=
  decide (d1.length = d2.length) &&
  (List.range d1.length).all fun i =>
    decide ((d1.getD i []).length = (d2.getD i []).length) &&
    (List.range (d1.getD i []).length).all fun j =>
      (mask.getD i []).getD j false ||
        decide ((d1.getD i []).getD j 0 = (d2.getD i []).getD j 0)

lemma flatMap_congr_mem {α β : Type} {l : List α} {f g : α → List β}
    (h : ∀ a ∈ l, f a = g a) : l.flatMap f = l.flatMap g := by
  induction l with
  | nil => rfl
  | cons a t ih =>
      simp only [List.flatMap_cons]
      rw [h a (List.mem_cons_self a t), ih fun x hx => h x (List.mem_cons_of_mem a hx)]

lemma compressed_residual_mask_agree (model : Nat → Nat → Rat)
    (mask : List (List Bool)) (err : Nat → Nat → Rat) (d1 d2 : List (List Rat))
    (h : maskAgreesOn mask d1 d2 = true) :
    compressed_residual model d1 mask err = compressed_residual model d2 mask err := by
  simp only [maskAgreesOn, Bool.and_eq_true, List.all_eq_true, List.mem_range,
    Bool.or_eq_true, decide_eq_true_eq] at h
  obtain ⟨hlen, hmain⟩ := h
  unfold compressed_residual
  rw [← hlen]
  apply flatMap_congr_mem
  intro i hi
  rw [List.mem_range] at hi
  obtain ⟨hrow, hvals⟩ := hmain i hi
  rw [← hrow]
  apply flatMap_congr_mem
  intro j hj
  rw [List.mem_range] at hj
  by_cases hm : (mask.getD i []).getD j false
  · rw [if_pos hm, if_pos hm]
  · rcases hvals j hj with hmt | heq
    · exact absurd hmt hm
    · rw [if_neg hm, if_neg hm, heq]

/-- C4: for two masked data arrays with identical masks and identical
values at every unmasked position, the residual function `peakfit`
constructs returns identical output for every parameter vector — the value
stored in a masked cell never enters the residual — and hence any
deterministic solver consuming the residual function produces an identical
fit result for both arrays. -/
theorem c4_masked_value_independence (T : TrigModel) (peakfunc : Rat → Rat → Rat)
    (err : Nat → Nat → Rat) (circle rotate vheight : Bool)
    (mask : List (List Bool)) (d1 d2 : List (List Rat))
    (h : maskAgreesOn mask d1 d2 = true) :
    (∀ p, peakfit_mpfitfun T peakfunc d1 mask err circle rotate vheight p =
      peakfit_mpfitfun T peakfunc d2 mask err circle rotate vheight p) ∧
    (∀ solver : (List Rat → Except (DecodeErr Rat) (List Rat)) → List Rat,
      solver (peakfit_mpfitfun T peakfunc d1 mask err circle rotate vheight) =
      solver (peakfit_mpfitfun T peakfunc d2 mask err circle rotate vheight)) := by
  have hres : ∀ p, peakfit_mpfitfun T peakfunc d1 mask err circle rotate vheight p =
      peakfit_mpfitfun T peakfunc d2 mask err circle rotate vheight p := by
    intro p
    unfold peakfit_mpfitfun
    cases hdec : twodpeak_decode T p circle rotate vheight with
    | error e => rfl
    | ok P =>
        have hcr := compressed_residual_mask_agree
          (fun i j => rotpeak T peakfunc P (i : Rat) (j : Rat)) mask err d1 d2 h
        simp only [hcr]
  exact ⟨hres, fun solver => congrArg solver (funext hres)⟩

/-- Witness for C4: grids `[[3, 5]]` and `[[3, 7]]` differ only in the
masked cell `(0,1)`; the residual function and any solver output coincide. -/
theorem c4_masked_value_independence_witness :
    maskAgreesOn [[false, true]] [[3, 5]] [[3, 7]] = true ∧
    ((∀ p, peakfit_mpfitfun trivialTrig (fun x w => x + w) [[3, 5]] [[false, true]]
        (fun _ _ => 1) false false false p =
      peakfit_mpfitfun trivialTrig (fun x w => x + w) [[3, 7]] [[false, true]]
        (fun _ _ => 1) false false false p) ∧
    (∀ solver : (List Rat → Except (DecodeErr Rat) (List Rat)) → List Rat,
      solver (peakfit_mpfitfun trivialTrig (fun x w => x + w) [[3, 5]] [[false, true]]
        (fun _ _ => 1) false false false) =
      solver (peakfit_mpfitfun trivialTrig (fun x w => x + w) [[3, 7]] [[false, true]]
        (fun _ _ => 1) false false false))) := by
  exact ⟨by decide, c4_masked_value_independence trivialTrig (fun x w => x + w)
    (fun _ _ => 1) false false false [[false, true]] [[3, 5]] [[3, 7]] (by decide)⟩

/-! ### Parameter metadata assembly of `mm_laguerregauss2d_fit` -/

/-- Parameter names used in the solver metadata records; a mode amplitude is
named by its `(p, l)` mode index. -/
inductive ParName where
  | HEIGHT
  | XSHIFT
  | YSHIFT
  | XWIDTH
  | YWIDTH
  | ROTATION
  | MODEAMP (p l : Nat)
deriving DecidableEq

/-- One solver metadata record, the dictionary
`(n, value, limits, limited, fixed, parname)` (the `error` slot is always
0 and is omitted). -/
structure ParInfoRec where
  n : Nat
  value : Rat
  lim_lo : Rat
  lim_hi : Rat
  limited_lo : Bool
  limited_hi : Bool
  fixedFlag : Bool
  parname : ParName
deriving DecidableEq

/-- Mode index of the `i`-th enumerated mode,
`itertools.product(range(max_p+1), range(max_l+1))` in row-major order
(line 429). -/
def modenum (max_l i : Nat) : Nat × Nat := (i / (max_l + 1), i % (max_l + 1))

/-- The clamping loop for mode amplitudes (lines 462-464): clamp above to
`maxamp` when `limitedampmax`, then below to `minamp` when `limitedampmin`. -/
def clamp_amps (amps : List Rat) (minamp maxamp : Rat) (lampmin lampmax : Bool) :
    List Rat :=
  amps.map fun a =>
    let a1 := if maxamp < a ∧ lampmax = true then maxamp else a
    if a1 < minamp ∧ lampmin = true then minamp else a1

/-- One scalar-field metadata record of `mm_laguerregauss2d_fit` (lines
478-498), reading slot `k` of the parameter vector and the per-parameter
configuration lists; an out-of-range read is Python's `IndexError`
(`none`). -/
def mm_parinfo_rec (params minpars maxpars : List Rat)
    (lmin lmax fixedL : List Bool) (k : Nat) (nm : ParName) :
    Option ParInfoRec := do
  let v ← params.get? k
  let lo ← minpars.get? k
  let hi ← maxpars.get? k
  let bl ← lmin.get? k
  let bh ← lmax.get? k
  let f ← fixedL.get? k
  pure ⟨k, v, lo, hi, bl, bh, f, nm⟩

/-- Metadata assembly of `mm_laguerregauss2d_fit` (lines 478-504): the base
records XSHIFT(1), YSHIFT(2), XWIDTH(3), with HEIGHT(0) inserted in front
when `vheight`, YWIDTH(4) appended when not `circle` and ROTATION(5) after
it when additionally `rotate`; then one MODEAMP record per enumerated mode,
each carrying the amplitude limits `[minamp, maxamp]`, the amplitude limit
flags, `fixed = False` and the mode index as its name — but all of them
reading their initial value from the single slot `n+1` of the parameter
vector (`'value': params[n+1]`, line 502), where `n` is one past the last
base record index. -/
def mm_parinfo (params minpars maxpars : List Rat)
    (lmin lmax fixedL : List Bool) (minamp maxamp : Rat)
    (lampmin lampmax : Bool) (max_p max_l : Nat)
    (circle rotate vheight : Bool) : Option (List ParInfoRec) := do
  let r1 ← mm_parinfo_rec params minpars maxpars lmin lmax fixedL 1 .XSHIFT
  let r2 ← mm_parinfo_rec params minpars maxpars lmin lmax fixedL 2 .YSHIFT
  let r3 ← mm_parinfo_rec params minpars maxpars lmin lmax fixedL 3 .XWIDTH
  let base1 := [r1, r2, r3]
  let base2 ← if vheight then do
      let r0 ← mm_parinfo_rec params minpars maxpars lmin lmax fixedL 0 .HEIGHT
      pure (r0 :: base1)
    else pure base1
  let base3 ← if circle then pure base2 else do
      let r4 ← mm_parinfo_rec params minpars maxpars lmin lmax fixedL 4 .YWIDTH
      if rotate then do
        let r5 ← mm_parinfo_rec params minpars maxpars lmin lmax fixedL 5 .ROTATION
        pure (base2 ++ [r4, r5])
      else pure (base2 ++ [r4])
  let n := (match base3.getLast? with | some rr => rr.n | none => 0) + 1
  let ampv ← params.get? (n + 1)
  pure (base3 ++ (List.range (amplen max_p max_l)).map fun i =>
    ⟨n + i, ampv, minamp, maxamp, lampmin, lampmax, false,
      .MODEAMP (modenum max_l i).1 (modenum max_l i).2⟩)

/-- C7 (code bug): the MODEAMP record for mode `i` reads its initial value
from `params[n+1]` instead of `params[n+i]` (line 502).  With a single mode
(`max_p = max_l = 0`) the index `n+1` is one past the end of the parameter
vector and the assembly crashes with `IndexError` (first conjunct: the
vector is the six scalars plus the single clamped amplitude `0`).  With two
modes and clamped amplitudes `(3, 0)` — the amplitude layout the moments
path produces, mode `(0,0)` carrying the estimated amplitude — every
MODEAMP record, including the one named `(0,0)`, carries the second mode's
value `0` instead of its own mode's amplitude `3` (second conjunct).  The
records do carry the amplitude limits, limit flags and mode-index names as
the claim states; only the initial value (and its existence) is wrong. -/
theorem c7_modeamp_value_misindexed :
    mm_parinfo ([0, 32, 32, 8, 8, 10] ++ clamp_amps [0] 0 2 true false)
      [0, 0, 0, 0, 0, 0] [0, 0, 0, 0, 0, 180]
      [false, true, true, true, true, true] [false, false, false, false, false, true]
      [false, false, false, false, false, false] 0 2 true false 0 0
      false true true = none ∧
    (mm_parinfo ([0, 32, 32, 8, 8, 10] ++ clamp_amps [3, 0] 0 2 true false)
      [0, 0, 0, 0, 0, 0] [0, 0, 0, 0, 0, 180]
      [false, true, true, true, true, true] [false, false, false, false, false, true]
      [false, false, false, false, false, false] 0 2 true false 1 0
      false true true).map (List.map fun rr => (rr.n, rr.value, rr.parname)) =
      some [(0, 0, .HEIGHT), (1, 32, .XSHIFT), (2, 32, .YSHIFT), (3, 8, .XWIDTH),
            (4, 8, .YWIDTH), (5, 10, .ROTATION),
            (6, 0, .MODEAMP 0 0), (7, 0, .MODEAMP 1 0)] := by
  constructor
  · rfl
  · rfl

/-! ### Per-peak configuration list normalization of `multipeakfit` -/

/-- Python `l * n`: the list repeated `n` times. -/
def replicateList {α : Type} (l : List α) : Nat → List α
  | 0 => []
  | n + 1 => l ++ replicateList l n

/-- Peak-count inference (line 921):
`if len(params) != npeak and (len(params) // 3) > npeak: npeak = len(params) // 3`. -/
def inferNpeak (npeak paramsLen : Nat) : Nat :=
  if paramsLen ≠ npeak ∧ npeak < paramsLen / 3 then paramsLen / 3 else npeak

/-- The six per-peak configuration lists of `multipeakfit`.  All are
modelled as rational lists because Python compares them with `==`, under
which booleans equal the numbers 0 and 1 (so `fixed`, `limitedmin`,
`limitedmax` hold 0/1). -/
structure MPLists where
  params : List Rat
  fixedL : List Rat
  limitedmin : List Rat
  limitedmax : List Rat
  minpars : List Rat
  maxpars : List Rat
deriving DecidableEq

/-- One iteration of the normalization loop (lines 928-941) on the current
list `cur`, with `st` the current values of all six lists (those processed
earlier already replaced): keep a list of length `3*npeak`; replicate a
length-3 list `npeak` times; otherwise replace it by the defaults of the
first configuration list it compares `==`-equal to, in the fixed clause
order params; fixed or limitedmax; limitedmin; minpars or maxpars. -/
def normOne (n : Nat) (st : MPLists) (cur : List Rat) : List Rat :=
  if cur.length = 3 * n then cur
  else if cur.length = 3 then replicateList cur n
  else if cur = st.params then replicateList [1, 0, 1] n
  else if cur = st.fixedL ∨ cur = st.limitedmax then replicateList [0, 0, 0] n
  else if cur = st.limitedmin then replicateList [0, 0, 1] n
  else if cur = st.minpars ∨ cur = st.maxpars then replicateList [0, 0, 0] n
  else cur

/-- The normalization pass of `multipeakfit` (lines 921-941): infer the peak
count, then rewrite the six lists in place, one after the other, in the
order params, fixed, limitedmin, limitedmax, minpars, maxpars — each step
seeing the already-normalized earlier lists. -/
def multipeakfit_normalize (npeak : Nat) (st : MPLists) : Nat × MPLists :=
  let n := inferNpeak npeak st.params.length
  let st1 := { st with params := normOne n st st.params }
  let st2 := { st1 with fixedL := normOne n st1 st1.fixedL }
  let st3 := { st2 with limitedmin := normOne n st2 st2.limitedmin }
  let st4 := { st3 with limitedmax := normOne n st3 st3.limitedmax }
  let st5 := { st4 with minpars := normOne n st4 st4.minpars }
  let st6 := { st5 with maxpars := normOne n st5 st5.maxpars }
  (n, st6)

/-- The normalization the claim describes: keep a correct-length list,
replicate a length-3 list, and otherwise replace the list by its OWN
per-peak defaults replicated. -/
def claimedNorm (n : Nat) (dflt cur : List Rat) : List Rat :=
  if cur.length = 3 * n then cur
  else if cur.length = 3 then replicateList cur n
  else replicateList dflt n

lemma replicateList_length {α : Type} (l : List α) (n : Nat) :
    (replicateList l n).length = n * l.length := by
  induction n with
  | zero => simp [replicateList]
  | succ k ih => simp [replicateList, ih, Nat.succ_mul, Nat.add_comm]

lemma claimedNorm_length (n : Nat) (dflt cur : List Rat) (hd : dflt.length = 3) :
    (claimedNorm n dflt cur).length = 3 * n := by
  unfold claimedNorm
  by_cases h1 : cur.length = 3 * n
  · rw [if_pos h1]; exact h1
  · rw [if_neg h1]
    by_cases h2 : cur.length = 3
    · rw [if_pos h2, replicateList_length, h2, Nat.mul_comm]
    · rw [if_neg h2, replicateList_length, hd, Nat.mul_comm]

lemma normOne_params_self (n : Nat) (st : MPLists) :
    normOne n st st.params = claimedNorm n [1, 0, 1] st.params := by
  unfold normOne claimedNorm
  by_cases h1 : st.params.length = 3 * n
  · simp [h1]
  · by_cases h2 : st.params.length = 3 <;> simp [h1, h2]

lemma normOne_fixed_self (n : Nat) (st : MPLists)
    (hp : st.params.length = 3 * n) :
    normOne n st st.fixedL = claimedNorm n [0, 0, 0] st.fixedL := by
  unfold normOne claimedNorm
  by_cases h1 : st.fixedL.length = 3 * n
  · simp [h1]
  · by_cases h2 : st.fixedL.length = 3
    · simp [h1, h2]
    · have hne : st.fixedL ≠ st.params := list_ne_of_length_ne (by rw [hp]; exact h1)
      simp [h1, h2, hne]

lemma normOne_limitedmin_self (n : Nat) (st : MPLists)
    (hp : st.params.length = 3 * n) (hf : st.fixedL.length = 3 * n) :
    normOne n st st.limitedmin =
      if st.limitedmin.length ≠ 3 * n ∧ st.limitedmin.length ≠ 3 ∧
          st.limitedmin = st.limitedmax
      then replicateList [0, 0, 0] n
      else claimedNorm n [0, 0, 1] st.limitedmin := by
  unfold normOne claimedNorm
  by_cases h1 : st.limitedmin.length = 3 * n
  · simp [h1]
  · by_cases h2 : st.limitedmin.length = 3
    · simp [h1, h2]
    · have hnep : st.limitedmin ≠ st.params :=
        list_ne_of_length_ne (by rw [hp]; exact h1)
      have hnef : st.limitedmin ≠ st.fixedL :=
        list_ne_of_length_ne (by rw [hf]; exact h1)
      by_cases hx : st.limitedmin = st.limitedmax
      · rw [if_neg h1, if_neg h2, if_neg hnep, if_pos (Or.inr hx),
            if_pos ⟨h1, h2, hx⟩]
      · rw [if_neg h1, if_neg h2, if_neg hnep,
            if_neg (fun hc => hc.elim hnef hx), if_pos rfl,
            if_neg (fun hc => hx hc.2.2), if_neg h1, if_neg h2]

lemma normOne_limitedmax_self (n : Nat) (st : MPLists)
    (hp : st.params.length = 3 * n) :
    normOne n st st.limitedmax = claimedNorm n [0, 0, 0] st.limitedmax := by
  unfold normOne claimedNorm
  by_cases h1 : st.limitedmax.length = 3 * n
  · simp [h1]
  · by_cases h2 : st.limitedmax.length = 3
    · simp [h1, h2]
    · have hnep : st.limitedmax ≠ st.params :=
        list_ne_of_length_ne (by rw [hp]; exact h1)
      simp [h1, h2, hnep]

lemma normOne_minpars_self (n : Nat) (st : MPLists)
    (hp : st.params.length = 3 * n) (hf : st.fixedL.length = 3 * n)
    (hlmin : st.limitedmin.length = 3 * n) (hlmax : st.limitedmax.length = 3 * n) :
    normOne n st st.minpars = claimedNorm n [0, 0, 0] st.minpars := by
  unfold normOne claimedNorm
  by_cases h1 : st.minpars.length = 3 * n
  · simp [h1]
  · by_cases h2 : st.minpars.length = 3
    · simp [h1, h2]
    · have hnep : st.minpars ≠ st.params :=
        list_ne_of_length_ne (by rw [hp]; exact h1)
      have hnef : st.minpars ≠ st.fixedL :=
        list_ne_of_length_ne (by rw [hf]; exact h1)
      have hne3 : st.minpars ≠ st.limitedmax :=
        list_ne_of_length_ne (by rw [hlmax]; exact h1)
      have hne4 : st.minpars ≠ st.limitedmin :=
        list_ne_of_length_ne (by rw [hlmin]; exact h1)
      simp [h1, h2, hnep, hnef, hne3, hne4]

lemma normOne_maxpars_self (n : Nat) (st : MPLists)
    (hp : st.params.length = 3 * n) (hf : st.fixedL.length = 3 * n)
    (hlmin : st.limitedmin.length = 3 * n) (hlmax : st.limitedmax.length = 3 * n)
    (hminp : st.minpars.length = 3 * n) :
    normOne n st st.maxpars = claimedNorm n [0, 0, 0] st.maxpars := by
  unfold normOne claimedNorm
  by_cases h1 : st.maxpars.length = 3 * n
  · simp [h1]
  · by_cases h2 : st.maxpars.length = 3
    · simp [h1, h2]
    · have hnep : st.maxpars ≠ st.params :=
        list_ne_of_length_ne (by rw [hp]; exact h1)
      have hnef : st.maxpars ≠ st.fixedL :=
        list_ne_of_length_ne (by rw [hf]; exact h1)
      have hne3 : st.maxpars ≠ st.limitedmax :=
        list_ne_of_length_ne (by rw [hlmax]; exact h1)
      have hne4 : st.maxpars ≠ st.limitedmin :=
        list_ne_of_length_ne (by rw [hlmin]; exact h1)
      have hne5 : st.maxpars ≠ st.minpars :=
        list_ne_of_length_ne (by rw [hminp]; exact h1)
      simp [h1, h2, hnep, hnef, hne3, hne4, hne5]

/-- C6 counterexample: with `npeak = 1`, `params = [1,0,1]`,
`fixed = [0,0,0]` and the wrong-length lists
`limitedmin = limitedmax = [0,0,0,0]` (Python `[False]*4`), the claim says
the wrong-length `limitedmin` is replaced by its own per-peak defaults
`[False, False, True] * 1 = [0,0,1]`; the code compares it `==`-equal to the
not-yet-normalized `limitedmax` first and replaces it with `[0,0,0]`. -/
theorem c6_limitedmin_default_counterexample :
    (multipeakfit_normalize 1
        ⟨[1, 0, 1], [0, 0, 0], [0, 0, 0, 0], [0, 0, 0, 0], [0, 0, 0], [0, 0, 0]⟩).2.limitedmin ≠
      replicateList [0, 0, 1] 1 := by
  decide

/-- C6 (amended): with `n` the inferred peak count, every per-peak
configuration list of length other than `3n` is normalized before fitting —
a list of length exactly 3 becomes its own contents replicated `n` times,
and any other wrong-length list is replaced by per-peak defaults replicated
`n` times, chosen by comparing the list `==`-equal against the others in a
fixed clause order; the defaults are the list's own for every list EXCEPT
that a wrong-length `limitedmin` that equals the not-yet-normalized
`limitedmax` by value receives the fixed/limitedmax default `[0,0,0]`
instead of its own `[0,0,1]`.  In particular `npeak = 3` with 3-element
lists replicates every list to length 9, matching a manually constructed
9-element call. -/
theorem c6_list_normalization_amended (npeak : Nat) (st : MPLists) :
    (multipeakfit_normalize npeak st).1 = inferNpeak npeak st.params.length ∧
    (multipeakfit_normalize npeak st).2.params =
      claimedNorm (inferNpeak npeak st.params.length) [1, 0, 1] st.params ∧
    (multipeakfit_normalize npeak st).2.fixedL =
      claimedNorm (inferNpeak npeak st.params.length) [0, 0, 0] st.fixedL ∧
    (multipeakfit_normalize npeak st).2.limitedmax =
      claimedNorm (inferNpeak npeak st.params.length) [0, 0, 0] st.limitedmax ∧
    (multipeakfit_normalize npeak st).2.minpars =
      claimedNorm (inferNpeak npeak st.params.length) [0, 0, 0] st.minpars ∧
    (multipeakfit_normalize npeak st).2.maxpars =
      claimedNorm (inferNpeak npeak st.params.length) [0, 0, 0] st.maxpars ∧
    (multipeakfit_normalize npeak st).2.limitedmin =
      (if st.limitedmin.length ≠ 3 * inferNpeak npeak st.params.length ∧
          st.limitedmin.length ≠ 3 ∧ st.limitedmin = st.limitedmax
       then replicateList [0, 0, 0] (inferNpeak npeak st.params.length)
       else claimedNorm (inferNpeak npeak st.params.length) [0, 0, 1] st.limitedmin) := by
  set n := inferNpeak npeak st.params.length with hn
  set st1 : MPLists := { st with params := normOne n st st.params } with hst1
  set st2 : MPLists := { st1 with fixedL := normOne n st1 st1.fixedL } with hst2
  set st3 : MPLists := { st2 with limitedmin := normOne n st2 st2.limitedmin } with hst3
  set st4 : MPLists := { st3 with limitedmax := normOne n st3 st3.limitedmax } with hst4
  set st5 : MPLists := { st4 with minpars := normOne n st4 st4.minpars } with hst5
  have hp1 : st1.params.length = 3 * n := by
    show (normOne n st st.params).length = 3 * n
    rw [normOne_params_self]
    exact claimedNorm_length _ _ _ rfl
  have hf2 : st2.fixedL.length = 3 * n := by
    show (normOne n st1 st1.fixedL).length = 3 * n
    rw [normOne_fixed_self n st1 hp1]
    exact claimedNorm_length _ _ _ rfl
  have hlmin3 : st3.limitedmin.length = 3 * n := by
    show (normOne n st2 st2.limitedmin).length = 3 * n
    rw [normOne_limitedmin_self n st2 hp1 hf2]
    by_cases hc : st2.limitedmin.length ≠ 3 * n ∧ st2.limitedmin.length ≠ 3 ∧
        st2.limitedmin = st2.limitedmax
    · rw [if_pos hc]
      simp [replicateList_length, Nat.mul_comm]
    · rw [if_neg hc]
      exact claimedNorm_length _ _ _ rfl
  have hlmax4 : st4.limitedmax.length = 3 * n := by
    show (normOne n st3 st3.limitedmax).length = 3 * n
    rw [normOne_limitedmax_self n st3 hp1]
    exact claimedNorm_length _ _ _ rfl
  have hminp5 : st5.minpars.length = 3 * n := by
    show (normOne n st4 st4.minpars).length = 3 * n
    rw [normOne_minpars_self n st4 hp1 hf2 hlmin3 hlmax4]
    exact claimedNorm_length _ _ _ rfl
  refine ⟨rfl, ?_, ?_, ?_, ?_, ?_, ?_⟩
  · exact normOne_params_self n st
  · exact normOne_fixed_self n st1 hp1
  · exact normOne_limitedmax_self n st3 hp1
  · exact normOne_minpars_self n st4 hp1 hf2 hlmin3 hlmax4
  · exact normOne_maxpars_self n st5 hp1 hf2 hlmin3 hlmax4 hminp5
  · exact normOne_limitedmin_self n st2 hp1 hf2
